import Mathlib

/-!
Verification of the x402 generation client (`scripts/x402-generate.mjs`):
a shallow embedding of the submit-then-poll workflow and proofs of the
specified properties.
-/

namespace X402

/-- JSON values, as far as the client's wire bodies need them. -/
inductive Json where
  | str : String → Json
  | num : Int → Json
  | null : Json
  | obj : List (String × Json) → Json

/-- A generation request, as assembled from the command-line arguments
(`prompt`, `model`, `duration`, `aspectRatio`, optional `agentId`,
optional `imageData`). -/
structure GenerationRequest where
  prompt : String
  videoModel : String
  duration : Int
  aspectRatio : String
  agentId : Option String
  imageData : Option String
deriving DecidableEq, Repr

/-- JavaScript truthiness of an optional string: `undefined` and the
empty string are falsy. -/
def truthyStr : Option String → Bool
  | none => false
  | some s => s ≠ ""

/-- The submission POST body, mirroring
`JSON.stringify({ prompt, videoModel, duration, aspectRatio,
...(agentId && { agentId }), ...(imageData && { imageData }) })`:
the object spread inserts the optional fields only when truthy. -/
def buildBody (req : GenerationRequest) : List (String × Json) :=
  [("prompt", Json.str req.prompt),
   ("videoModel", Json.str req.videoModel),
   ("duration", Json.num req.duration),
   ("aspectRatio", Json.str req.aspectRatio)]
  ++ (if truthyStr req.agentId then [("agentId", Json.str (req.agentId.getD ""))] else [])
  ++ (if truthyStr req.imageData then [("imageData", Json.str (req.imageData.getD ""))] else [])

/-- The decoded body of the submission response
(`{taskId?, txHash?, explorer?}`); absent fields are `none`. -/
structure SubmissionBody where
  taskId : Option String
  txHash : Option String
  explorer : Option String
deriving DecidableEq, Repr

/-- Mirrors `res.status !== 202 || !body.taskId`, the failure test, so the
submission succeeds exactly when the status is 202 and `body.taskId`
is truthy. -/
def submissionOk (status : Nat) (body : SubmissionBody) : Bool :=
  status == 202 && truthyStr body.taskId

/-- The character class `[1-9A-HJ-NP-Za-km-z]` of the base-58 alphabet. -/
def base58Char (c : Char) : Bool :=
  (('1' ≤ c && c ≤ '9') ||
   ('A' ≤ c && c ≤ 'H') || ('J' ≤ c && c ≤ 'N') || ('P' ≤ c && c ≤ 'Z') ||
   ('a' ≤ c && c ≤ 'k') || ('m' ≤ c && c ≤ 'z'))

/-- The anchored regex `/^[1-9A-HJ-NP-Za-km-z]{80,90}$/`: every character
is in the base-58 class and the length is between 80 and 90. -/
def base58SigPattern (s : String) : Bool :=
  decide (80 ≤ s.length) && decide (s.length ≤ 90) && s.data.all base58Char

/-- The explorer-URI derivation applied when the server supplies none:
`paymentNetwork === 'solana' || pattern.test(tx) ? solscan : basescan`. -/
def deriveExplorer (paymentNetwork : String) (tx : String) : String :=
  if paymentNetwork == "solana" || base58SigPattern tx then
    "https://solscan.io/tx/" ++ tx
  else
    "https://basescan.org/tx/" ++ tx

/-- Mirrors `body.explorer || derived`: a truthy server-supplied explorer string
wins; otherwise the derivation is consulted. -/
def explorerShown (serverExplorer : Option String) (paymentNetwork tx : String) : String :=
  if truthyStr serverExplorer then serverExplorer.getD ""
  else deriveExplorer paymentNetwork tx

/-- Shape of `status.result.generation` of a poll response: the media references. -/
structure Generation where
  video : Option String
  image : Option String
  gif : Option String
deriving DecidableEq, Repr

/-- Shape of `status.result` of a poll response. -/
structure ResultPayload where
  generation : Option Generation
deriving DecidableEq, Repr

/-- The decoded body of one poll of the status endpoint. -/
structure PollResponse where
  status : Option String
  metadataPercent : Option Int
  progress : Option Int
  result : Option ResultPayload
  error : Option String
  txHash : Option String
  explorer : Option String
deriving DecidableEq, Repr

/-- JavaScript truthiness of an optional number: `undefined` and `0`
are falsy. -/
def truthyNum : Option Int → Option Int
  | none => none
  | some n => if n == 0 then none else some n

/-- Mirrors `status.metadata?.percent || status.progress || 0`. -/
def pollPercent (r : PollResponse) : Int :=
  ((truthyNum r.metadataPercent).getD ((truthyNum r.progress).getD 0))

/-- One transient progress line (`\r   ${status.status} ${pct}% ...`)
emitted for a non-terminal poll. -/
structure ProgressLine where
  statusText : Option String
  percent : Int
deriving DecidableEq, Repr

/-- Terminal outcome of the polling loop. -/
inductive PollOutcome where
  | completed (video image gif : Option String)
  | failed (error : Option String)
  | timedOut (label : String)
deriving DecidableEq, Repr

/-- Process exit code of each polling outcome: `process.exit(0)` on
completion, `process.exit(1)` on failure and timeout. -/
def PollOutcome.exitCode : PollOutcome → Nat
  | .completed _ _ _ => 0
  | .failed _ => 1
  | .timedOut _ => 1

/-- Result of running the polling loop: the terminal outcome, the number
of GETs of the status endpoint that were issued, and the transient
progress lines written along the way. -/
structure LoopResult where
  outcome : PollOutcome
  polls : Nat
  lines : List ProgressLine
deriving DecidableEq, Repr

/-- The polling loop `for (let i = 0; i < maxPolls; i++)`, with
`fetchStatus i` the decoded body of the poll at iteration `i` and `fuel`
the remaining attempts.  A `"completed"` status extracts the media
references through optional chaining (`status.result?.generation`,
`gen?.video`, ...); a `"failed"` status stops with the payload's error
text; anything else writes a progress line and loops; exhausted fuel is
the timeout. -/
def pollLoop (fetchStatus : Nat → PollResponse) (label : String) :
    Nat → Nat → LoopResult
  | 0, _ => ⟨.timedOut label, 0, []⟩
  | fuel + 1, i =>
    let status := fetchStatus i
    if status.status == some "completed" then
      let gen := status.result.bind ResultPayload.generation
      ⟨.completed (gen.bind Generation.video) (gen.bind Generation.image)
        (gen.bind Generation.gif), 1, []⟩
    else if status.status == some "failed" then
      ⟨.failed status.error, 1, []⟩
    else
      let rest := pollLoop fetchStatus label fuel (i + 1)
      ⟨rest.outcome, rest.polls + 1, ⟨status.status, pollPercent status⟩ :: rest.lines⟩

/-- Mirrors `const SLOW_MODELS = ['fal-kling-o3']`. -/
def SLOW_MODELS : List String := ["fal-kling-o3"]

/-- Whether the first character list starts the second. -/
def startsWithChars : List Char → List Char → Bool
  | [], _ => true
  | _ :: _, [] => false
  | a :: as, b :: bs => a == b && startsWithChars as bs

/-- Whether the first character list occurs contiguously in the second. -/
def hasInfixChars (sub : List Char) : List Char → Bool
  | [] => sub == []
  | c :: rest => startsWithChars sub (c :: rest) || hasInfixChars sub rest

/-- Mirrors `s.includes(sub)`: substring containment. -/
def strIncludes (s sub : String) : Bool :=
  hasInfixChars sub.data s.data

/-- Mirrors `s.startsWith(pre)`: prefix test. -/
def strStartsWith (s pre : String) : Bool :=
  startsWithChars pre.data s.data

/-- Mirrors `SLOW_MODELS.some(m => model.startsWith(m) || model.includes('kling'))`. -/
def isSlowModel (model : String) : Bool :=
  SLOW_MODELS.any fun m => strStartsWith model m || strIncludes model "kling"

/-- The polling policy selected once before the loop starts. -/
structure PollingPolicy where
  intervalMs : Nat
  maxAttempts : Nat
  timeoutLabel : String
deriving DecidableEq, Repr

/-- Mirrors `pollIntervalMs = isSlowModel ? 10000 : 5000`,
`maxPolls = isSlowModel ? 120 : 120`,
`timeoutLabel = isSlowModel ? '20 minutes' : '10 minutes'`. -/
def pollingPolicy (model : String) : PollingPolicy :=
  let slow := isSlowModel model
  ⟨if slow then 10000 else 5000,
   if slow then 120 else 120,
   if slow then "20 minutes" else "10 minutes"⟩

/-- Whole-client outcome: either the submission fails before any poll,
or the polling loop runs to one of its terminal outcomes. -/
inductive RunOutcome where
  | submissionError (rawBody : SubmissionBody)
  | generation (r : PollOutcome)
deriving DecidableEq, Repr

/-- Result of a full client invocation. -/
structure RunResult where
  outcome : RunOutcome
  posts : Nat
  polls : Nat
  lines : List ProgressLine
deriving DecidableEq, Repr

/-- Exit code of the whole invocation. -/
def RunResult.exitCode (r : RunResult) : Nat :=
  match r.outcome with
  | .submissionError _ => 1
  | .generation p => p.exitCode

/-- The full client run: issue the single POST (whose decoded response is
`subStatus`/`subBody`), check `res.status !== 202 || !body.taskId`, then
select the polling policy from the requested model and run the polling
loop. -/
def runClient (req : GenerationRequest) (subStatus : Nat) (subBody : SubmissionBody)
    (fetchStatus : Nat → PollResponse) : RunResult :=
  if submissionOk subStatus subBody then
    let policy := pollingPolicy req.videoModel
    let lr := pollLoop fetchStatus policy.timeoutLabel policy.maxAttempts 0
    ⟨.generation lr.outcome, 1, lr.polls, lr.lines⟩
  else
    ⟨.submissionError subBody, 1, 0, []⟩

/-- A poll response is non-terminal when its status string is neither
`"completed"` nor `"failed"` (including absent or unrecognized). -/
def nonTerminal (r : PollResponse) : Bool :=
  !(r.status == some "completed") && !(r.status == some "failed")

/-- Whether the full-run outcome is a submission error. -/
def RunOutcome.isSubmissionError : RunOutcome → Bool
  | .submissionError _ => true
  | .generation _ => false

lemma truthyStr_eq_true_iff (o : Option String) :
    truthyStr o = true ↔ ∃ s, o = some s ∧ s ≠ "" := by
  cases o with
  | none => simp [truthyStr]
  | some s => simp [truthyStr]

lemma pollingPolicy_maxAttempts (model : String) :
    (pollingPolicy model).maxAttempts = 120 := by
  simp [pollingPolicy]

lemma runClient_ok (req : GenerationRequest) (subStatus : Nat) (subBody : SubmissionBody)
    (f : Nat → PollResponse) (hsub : submissionOk subStatus subBody = true) :
    runClient req subStatus subBody f =
      ⟨.generation (pollLoop f (pollingPolicy req.videoModel).timeoutLabel 120 0).outcome, 1,
       (pollLoop f (pollingPolicy req.videoModel).timeoutLabel 120 0).polls,
       (pollLoop f (pollingPolicy req.videoModel).timeoutLabel 120 0).lines⟩ := by
  simp [runClient, hsub, pollingPolicy_maxAttempts]

/-- C5: the polling policy is a static function of the requested model:
slow models (prefix match against the slow list or substring match on
the slow token) get interval 10,000 ms, budget 120 and label
"20 minutes"; all other models get interval 5,000 ms, budget 120 and
label "10 minutes". -/
theorem polling_policy_selection (model : String) :
    (pollingPolicy model).maxAttempts = 120 ∧
    (pollingPolicy model).intervalMs = (if isSlowModel model then 10000 else 5000) ∧
    (pollingPolicy model).timeoutLabel =
      (if isSlowModel model then "20 minutes" else "10 minutes") ∧
    isSlowModel model = (strStartsWith model "fal-kling-o3" || strIncludes model "kling") := by
  refine ⟨pollingPolicy_maxAttempts model, ?_, ?_, ?_⟩
  · simp [pollingPolicy]
  · simp [pollingPolicy]
  · simp [isSlowModel, SLOW_MODELS]

/-- C6: the explorer URI is a deterministic function of the payment
network and the transaction reference: network "solana" always selects
the Solscan template, while network "base" selects Solscan exactly when
the reference matches the base-58 80-90-character pattern and Basescan
otherwise (the pattern wins over the declared network). -/
theorem explorer_derivation (tx : String) :
    deriveExplorer "solana" tx = "https://solscan.io/tx/" ++ tx ∧
    deriveExplorer "base" tx =
      (if base58SigPattern tx then "https://solscan.io/tx/" ++ tx
       else "https://basescan.org/tx/" ++ tx) := by
  constructor
  · simp [deriveExplorer]
  · have hb : (("base" : String) == "solana") = false := by decide
    simp [deriveExplorer, hb]

/-- C9: a non-empty server-supplied explorer string is shown verbatim
and the derivation is not applied; the derivation is consulted exactly
when the explorer field is absent or the empty string. -/
theorem server_explorer_precedence (e network tx : String) (he : e ≠ "") :
    explorerShown (some e) network tx = e ∧
    explorerShown none network tx = deriveExplorer network tx ∧
    explorerShown (some "") network tx = deriveExplorer network tx := by
  refine ⟨?_, ?_, ?_⟩
  · simp [explorerShown, truthyStr, he]
  · simp [explorerShown, truthyStr]
  · simp [explorerShown, truthyStr]

theorem server_explorer_precedence_witness :
    explorerShown (some "https://example.org/tx/1") "base" "0xabc" = "https://example.org/tx/1" ∧
    explorerShown none "base" "0xabc" = deriveExplorer "base" "0xabc" ∧
    explorerShown (some "") "base" "0xabc" = deriveExplorer "base" "0xabc" :=
  server_explorer_precedence "https://example.org/tx/1" "base" "0xabc" (by decide)

/-- C8: the submission body always carries exactly the fields `prompt`,
`videoModel`, `duration` and `aspectRatio`, carries `agentId` and
`imageData` exactly when they are present (truthy), and never serializes
an absent optional field as `null`. -/
theorem submission_body_fields (req : GenerationRequest) :
    (buildBody req).map Prod.fst =
      ["prompt", "videoModel", "duration", "aspectRatio"]
        ++ (if truthyStr req.agentId then ["agentId"] else [])
        ++ (if truthyStr req.imageData then ["imageData"] else []) ∧
    ∀ p ∈ buildBody req, p.2 ≠ Json.null := by
  constructor
  · cases h1 : truthyStr req.agentId <;> cases h2 : truthyStr req.imageData <;>
      simp [buildBody, h1, h2]
  · intro p hp
    cases h1 : truthyStr req.agentId <;> cases h2 : truthyStr req.imageData <;>
      simp [buildBody, h1, h2] at hp <;>
      casesm* _ ∨ _ <;> simp_all

theorem submission_body_fields_witness :
    (buildBody ⟨"A sunset over mountains", "xai-grok-imagine", 8, "9:16", none, none⟩).map
        Prod.fst = ["prompt", "videoModel", "duration", "aspectRatio"] ∧
    ∀ p ∈ buildBody ⟨"A sunset over mountains", "xai-grok-imagine", 8, "9:16", none, none⟩,
      p.2 ≠ Json.null := by
  have h := submission_body_fields
    ⟨"A sunset over mountains", "xai-grok-imagine", 8, "9:16", none, none⟩
  exact ⟨by simpa [truthyStr] using h.1, h.2⟩

/-- C1: the submission succeeds (and the client proceeds to polling) if
and only if the HTTP status is exactly 202 and the decoded body holds a
non-empty task identifier; every other combination is a submission
failure with exit code 1 and no polls; the creation POST is issued
exactly once in either case. -/
theorem submission_acceptance_gate (req : GenerationRequest) (subStatus : Nat)
    (subBody : SubmissionBody) (f : Nat → PollResponse) :
    (runClient req subStatus subBody f).posts = 1 ∧
    (submissionOk subStatus subBody = true ↔
      subStatus = 202 ∧ ∃ s, subBody.taskId = some s ∧ s ≠ "") ∧
    (submissionOk subStatus subBody = false →
      (runClient req subStatus subBody f).outcome = .submissionError subBody ∧
      (runClient req subStatus subBody f).exitCode = 1 ∧
      (runClient req subStatus subBody f).polls = 0) ∧
    (submissionOk subStatus subBody = true →
      ∃ p, (runClient req subStatus subBody f).outcome = .generation p) := by
  refine ⟨?_, ?_, ?_, ?_⟩
  · cases h : submissionOk subStatus subBody <;> simp [runClient, h]
  · rw [submissionOk, Bool.and_eq_true, truthyStr_eq_true_iff]
    simp [Nat.beq_eq]
  · intro h
    simp [runClient, h, RunResult.exitCode]
  · intro h
    refine ⟨(pollLoop f (pollingPolicy req.videoModel).timeoutLabel
      (pollingPolicy req.videoModel).maxAttempts 0).outcome, ?_⟩
    simp [runClient, h]

theorem submission_acceptance_gate_witness :
    (runClient ⟨"A sunset over mountains", "xai-grok-imagine", 8, "9:16", none, none⟩
        202 ⟨none, none, none⟩ (fun _ => ⟨some "running", none, some 10, none, none, none, none⟩)).outcome =
      .submissionError ⟨none, none, none⟩ ∧
    (runClient ⟨"A sunset over mountains", "xai-grok-imagine", 8, "9:16", none, none⟩
        202 ⟨none, none, none⟩ (fun _ => ⟨some "running", none, some 10, none, none, none, none⟩)).exitCode = 1 ∧
    (runClient ⟨"A sunset over mountains", "xai-grok-imagine", 8, "9:16", none, none⟩
        202 ⟨none, none, none⟩ (fun _ => ⟨some "running", none, some 10, none, none, none, none⟩)).polls = 0 ∧
    (runClient ⟨"A sunset over mountains", "xai-grok-imagine", 8, "9:16", none, none⟩
        202 ⟨none, none, none⟩ (fun _ => ⟨some "running", none, some 10, none, none, none, none⟩)).posts = 1 := by
  have h := submission_acceptance_gate
    ⟨"A sunset over mountains", "xai-grok-imagine", 8, "9:16", none, none⟩
    202 ⟨none, none, none⟩ (fun _ => ⟨some "running", none, some 10, none, none, none, none⟩)
  have hfail := h.2.2.1 (by decide)
  exact ⟨hfail.1, hfail.2.1, hfail.2.2, h.1⟩

lemma pollLoop_succ_nonterminal (f : Nat → PollResponse) (l : String) (fuel i : Nat)
    (h : nonTerminal (f i) = true) :
    pollLoop f l (fuel + 1) i =
      ⟨(pollLoop f l fuel (i + 1)).outcome, (pollLoop f l fuel (i + 1)).polls + 1,
       ⟨(f i).status, pollPercent (f i)⟩ :: (pollLoop f l fuel (i + 1)).lines⟩ := by
  rw [nonTerminal] at h
  simp only [Bool.and_eq_true, Bool.not_eq_true'] at h
  obtain ⟨h1, h2⟩ := h
  simp [pollLoop, h1, h2]

lemma pollLoop_all_nonterminal (f : Nat → PollResponse) (l : String)
    (hnt : ∀ j, nonTerminal (f j) = true) :
    ∀ fuel i, (pollLoop f l fuel i).outcome = .timedOut l ∧
      (pollLoop f l fuel i).polls = fuel := by
  intro fuel
  induction fuel with
  | zero => intro i; simp [pollLoop]
  | succ n ih =>
    intro i
    rw [pollLoop_succ_nonterminal f l n i (hnt i)]
    exact ⟨(ih (i + 1)).1, by rw [show (⟨(pollLoop f l n (i+1)).outcome,
      (pollLoop f l n (i+1)).polls + 1, _⟩ : LoopResult).polls =
        (pollLoop f l n (i+1)).polls + 1 from rfl, (ih (i + 1)).2]⟩

/-- Media references extracted through the completed branch's optional
chain from a poll response. -/
def extractedOutcome (r : PollResponse) : PollOutcome :=
  .completed ((r.result.bind ResultPayload.generation).bind Generation.video)
    ((r.result.bind ResultPayload.generation).bind Generation.image)
    ((r.result.bind ResultPayload.generation).bind Generation.gif)

lemma pollLoop_first_terminal (f : Nat → PollResponse) (l : String) :
    ∀ (k fuel i : Nat), k < fuel →
      (∀ j, j < k → nonTerminal (f (i + j)) = true) →
      nonTerminal (f (i + k)) = false →
      (pollLoop f l fuel i).outcome =
        (if (f (i + k)).status == some "completed" then extractedOutcome (f (i + k))
         else PollOutcome.failed (f (i + k)).error) ∧
      (pollLoop f l fuel i).polls = k + 1 := by
  intro k
  induction k with
  | zero =>
    intro fuel i hk _ hterm
    obtain ⟨m, rfl⟩ : ∃ m, fuel = m + 1 := ⟨fuel - 1, by omega⟩
    rw [Nat.add_zero] at hterm ⊢
    cases hca : ((f i).status == some "completed") with
    | true => simp [pollLoop, hca, extractedOutcome]
    | false =>
      have hcf : ((f i).status == some "failed") = true := by
        rw [nonTerminal, hca] at hterm
        simpa using hterm
      simp [pollLoop, hca, hcf]
  | succ k ih =>
    intro fuel i hk hnt hterm
    obtain ⟨m, rfl⟩ : ∃ m, fuel = m + 1 := ⟨fuel - 1, by omega⟩
    have h0 : nonTerminal (f i) = true := by
      have := hnt 0 (Nat.succ_pos k)
      rwa [Nat.add_zero] at this
    rw [pollLoop_succ_nonterminal f l m i h0]
    have e : i + 1 + k = i + (k + 1) := by omega
    have hnt' : ∀ j, j < k → nonTerminal (f (i + 1 + j)) = true := by
      intro j hj
      have := hnt (j + 1) (by omega)
      rwa [show i + (j + 1) = i + 1 + j by omega] at this
    have hterm' : nonTerminal (f (i + 1 + k)) = false := by rwa [e]
    have H := ih m (i + 1) (by omega) hnt' hterm'
    rw [e] at H
    exact ⟨H.1, by
      rw [show (⟨(pollLoop f l m (i+1)).outcome, (pollLoop f l m (i+1)).polls + 1, _⟩ :
        LoopResult).polls = (pollLoop f l m (i+1)).polls + 1 from rfl, H.2]⟩

/-- C2: under a successful submission, the first poll whose status is
`"completed"` ends the loop on that iteration (after exactly `k + 1`
polls when it is poll index `k`), the client exits with code 0, and the
reported video reference is the response's `result.generation.video`. -/
theorem first_completed_ends_loop (req : GenerationRequest) (subStatus : Nat)
    (subBody : SubmissionBody) (f : Nat → PollResponse) (k : Nat)
    (hsub : submissionOk subStatus subBody = true)
    (hk : k < 120)
    (hnt : ∀ j, j < k → nonTerminal (f j) = true)
    (hc : (f k).status = some "completed") :
    (runClient req subStatus subBody f).outcome =
      .generation (.completed
        (((f k).result.bind ResultPayload.generation).bind Generation.video)
        (((f k).result.bind ResultPayload.generation).bind Generation.image)
        (((f k).result.bind ResultPayload.generation).bind Generation.gif)) ∧
    (runClient req subStatus subBody f).polls = k + 1 ∧
    (runClient req subStatus subBody f).exitCode = 0 := by
  rw [runClient_ok req subStatus subBody f hsub]
  have hterm : nonTerminal (f (0 + k)) = false := by
    rw [Nat.zero_add, nonTerminal, hc]
    simp
  have hnt0 : ∀ j, j < k → nonTerminal (f (0 + j)) = true := by
    intro j hj
    rw [Nat.zero_add]
    exact hnt j hj
  have H := pollLoop_first_terminal f (pollingPolicy req.videoModel).timeoutLabel
    k 120 0 hk hnt0 hterm
  rw [Nat.zero_add] at H
  rw [hc] at H
  simp only [extractedOutcome] at H
  have hbeq : ((some "completed" : Option String) == some "completed") = true := by decide
  rw [hbeq, if_pos rfl] at H
  exact ⟨by rw [show (⟨RunOutcome.generation (pollLoop f
      (pollingPolicy req.videoModel).timeoutLabel 120 0).outcome, 1, _, _⟩ :
      RunResult).outcome = RunOutcome.generation (pollLoop f
      (pollingPolicy req.videoModel).timeoutLabel 120 0).outcome from rfl, H.1],
    by rw [show (⟨_, 1, (pollLoop f (pollingPolicy req.videoModel).timeoutLabel 120 0).polls,
      _⟩ : RunResult).polls = (pollLoop f
      (pollingPolicy req.videoModel).timeoutLabel 120 0).polls from rfl, H.2],
    by simp [RunResult.exitCode, H.1, PollOutcome.exitCode]⟩

/-- Request of the worked scenario: a sunset prompt on the default
model. -/
def reqSunset : GenerationRequest :=
  ⟨"A sunset over mountains", "xai-grok-imagine", 8, "9:16", none, none⟩

/-- Accepted submission body with a task identifier. -/
def taskBody : SubmissionBody := ⟨some "task-1", none, none⟩

/-- Poll response `{status:"running", progress:40}`. -/
def runningR : PollResponse := ⟨some "running", none, some 40, none, none, none, none⟩

/-- Poll response `{status:"completed",
result:{generation:{video:"https://x/video.mp4"}}}`. -/
def completedVideoR : PollResponse :=
  ⟨some "completed", none, none, some ⟨some ⟨some "https://x/video.mp4", none, none⟩⟩,
   none, none, none⟩

/-- Status responses of the worked scenario: one running poll, then
completed. -/
def scenarioPolls : Nat → PollResponse
  | 0 => runningR
  | _ + 1 => completedVideoR

theorem first_completed_ends_loop_witness :
    (runClient reqSunset 202 taskBody scenarioPolls).outcome =
      .generation (.completed (some "https://x/video.mp4") none none) ∧
    (runClient reqSunset 202 taskBody scenarioPolls).polls = 2 ∧
    (runClient reqSunset 202 taskBody scenarioPolls).exitCode = 0 := by
  have H := first_completed_ends_loop reqSunset 202 taskBody scenarioPolls 1
    (by decide) (by decide)
    (by intro j hj
        have hj0 : j = 0 := by omega
        subst hj0
        decide)
    (by decide)
  exact H

/-- C3: under a successful submission, if every poll response is
non-terminal the loop performs exactly the attempt budget of 120 polls
(never more, never fewer) and ends with the timed-out outcome carrying
the policy's configured timeout label, at exit code 1. -/
theorem nonterminal_polls_timeout (req : GenerationRequest) (subStatus : Nat)
    (subBody : SubmissionBody) (f : Nat → PollResponse)
    (hsub : submissionOk subStatus subBody = true)
    (hnt : ∀ j, nonTerminal (f j) = true) :
    (runClient req subStatus subBody f).outcome =
      .generation (.timedOut (pollingPolicy req.videoModel).timeoutLabel) ∧
    (runClient req subStatus subBody f).polls = 120 ∧
    (pollingPolicy req.videoModel).maxAttempts = 120 ∧
    (runClient req subStatus subBody f).exitCode = 1 := by
  rw [runClient_ok req subStatus subBody f hsub]
  have H := pollLoop_all_nonterminal f (pollingPolicy req.videoModel).timeoutLabel hnt 120 0
  exact ⟨by rw [show (⟨RunOutcome.generation (pollLoop f
      (pollingPolicy req.videoModel).timeoutLabel 120 0).outcome, 1, _, _⟩ :
      RunResult).outcome = RunOutcome.generation (pollLoop f
      (pollingPolicy req.videoModel).timeoutLabel 120 0).outcome from rfl, H.1],
    by rw [show (⟨_, 1, (pollLoop f (pollingPolicy req.videoModel).timeoutLabel 120 0).polls,
      _⟩ : RunResult).polls = (pollLoop f
      (pollingPolicy req.videoModel).timeoutLabel 120 0).polls from rfl, H.2],
    pollingPolicy_maxAttempts req.videoModel,
    by simp [RunResult.exitCode, H.1, PollOutcome.exitCode]⟩

theorem nonterminal_polls_timeout_witness :
    (runClient reqSunset 202 taskBody (fun _ => runningR)).outcome =
      .generation (.timedOut "10 minutes") ∧
    (runClient reqSunset 202 taskBody (fun _ => runningR)).polls = 120 ∧
    (runClient reqSunset 202 taskBody (fun _ => runningR)).exitCode = 1 := by
  have H := nonterminal_polls_timeout reqSunset 202 taskBody (fun _ => runningR)
    (by decide)
    (by intro j
        show nonTerminal runningR = true
        decide)
  have e : (pollingPolicy reqSunset.videoModel).timeoutLabel = "10 minutes" := by decide
  exact ⟨by rw [H.1, e], H.2.1, H.2.2.2⟩

/-- C4: under a successful submission, the first poll whose status is
`"failed"` ends the loop immediately (after exactly `k + 1` polls when
it is poll index `k`), the client exits with code 1, and the outcome
carries the response payload's error text verbatim. -/
theorem first_failed_ends_loop (req : GenerationRequest) (subStatus : Nat)
    (subBody : SubmissionBody) (f : Nat → PollResponse) (k : Nat)
    (hsub : submissionOk subStatus subBody = true)
    (hk : k < 120)
    (hnt : ∀ j, j < k → nonTerminal (f j) = true)
    (hc : (f k).status = some "failed") :
    (runClient req subStatus subBody f).outcome =
      .generation (.failed (f k).error) ∧
    (runClient req subStatus subBody f).polls = k + 1 ∧
    (runClient req subStatus subBody f).exitCode = 1 := by
  rw [runClient_ok req subStatus subBody f hsub]
  have hterm : nonTerminal (f (0 + k)) = false := by
    rw [Nat.zero_add, nonTerminal, hc]
    decide
  have hnt0 : ∀ j, j < k → nonTerminal (f (0 + j)) = true := by
    intro j hj
    rw [Nat.zero_add]
    exact hnt j hj
  have H := pollLoop_first_terminal f (pollingPolicy req.videoModel).timeoutLabel
    k 120 0 hk hnt0 hterm
  rw [Nat.zero_add] at H
  rw [hc] at H
  have hbeq : ((some "failed" : Option String) == some "completed") = false := by decide
  rw [hbeq, if_neg Bool.false_ne_true] at H
  exact ⟨by rw [show (⟨RunOutcome.generation (pollLoop f
      (pollingPolicy req.videoModel).timeoutLabel 120 0).outcome, 1, _, _⟩ :
      RunResult).outcome = RunOutcome.generation (pollLoop f
      (pollingPolicy req.videoModel).timeoutLabel 120 0).outcome from rfl, H.1],
    by rw [show (⟨_, 1, (pollLoop f (pollingPolicy req.videoModel).timeoutLabel 120 0).polls,
      _⟩ : RunResult).polls = (pollLoop f
      (pollingPolicy req.videoModel).timeoutLabel 120 0).polls from rfl, H.2],
    by simp [RunResult.exitCode, H.1, PollOutcome.exitCode]⟩

/-- Poll response `{status:"failed", error:"boom"}`. -/
def failedR : PollResponse := ⟨some "failed", none, none, none, some "boom", none, none⟩

/-- Status responses of the failing scenario: one running poll, then
failed. -/
def scenarioFailPolls : Nat → PollResponse
  | 0 => runningR
  | _ + 1 => failedR

theorem first_failed_ends_loop_witness :
    (runClient reqSunset 202 taskBody scenarioFailPolls).outcome =
      .generation (.failed (some "boom")) ∧
    (runClient reqSunset 202 taskBody scenarioFailPolls).polls = 2 ∧
    (runClient reqSunset 202 taskBody scenarioFailPolls).exitCode = 1 := by
  have H := first_failed_ends_loop reqSunset 202 taskBody scenarioFailPolls 1
    (by decide) (by decide)
    (by intro j hj
        have hj0 : j = 0 := by omega
        subst hj0
        decide)
    (by decide)
  exact H

/-- C7: a poll response whose status is neither `"completed"` nor
`"failed"` (including unrecognized strings) is treated as still in
progress: the iteration emits one transient progress line (the status
text and the extracted percent) and the loop continues, the overall
outcome being whatever the remaining iterations produce — an unknown
status never terminates the loop by itself. -/
theorem unknown_status_continues (f : Nat → PollResponse) (l : String) (fuel i : Nat)
    (h : nonTerminal (f i) = true) :
    (pollLoop f l (fuel + 1) i).outcome = (pollLoop f l fuel (i + 1)).outcome ∧
    (pollLoop f l (fuel + 1) i).polls = (pollLoop f l fuel (i + 1)).polls + 1 ∧
    (pollLoop f l (fuel + 1) i).lines =
      ⟨(f i).status, pollPercent (f i)⟩ :: (pollLoop f l fuel (i + 1)).lines := by
  rw [pollLoop_succ_nonterminal f l fuel i h]
  exact ⟨rfl, rfl, rfl⟩

/-- Poll response with the unrecognized status `"banana"` and both
percent fields set (`metadata.percent` 0 is falsy, so `progress` 7 is
shown). -/
def bananaR : PollResponse := ⟨some "banana", some 0, some 7, none, none, none, none⟩

theorem unknown_status_continues_witness :
    (pollLoop (fun _ => bananaR) "10 minutes" 1 0).outcome = .timedOut "10 minutes" ∧
    (pollLoop (fun _ => bananaR) "10 minutes" 1 0).polls = 1 ∧
    (pollLoop (fun _ => bananaR) "10 minutes" 1 0).lines = [⟨some "banana", 7⟩] := by
  have H := unknown_status_continues (fun _ => bananaR) "10 minutes" 0 0 (by decide)
  refine ⟨?_, ?_, ?_⟩
  · rw [H.1]
    rfl
  · rw [H.2.1]
    rfl
  · rw [H.2.2]
    decide

/-- C10: a `"completed"` poll terminates the client successfully with
exit code 0 even when the result payload, its generation object, or the
nested video field is absent: the extraction is optional at each level
and performs no validation, and the reported video reference is `none`
when the payload is missing. -/
theorem completed_result_guarded (req : GenerationRequest) (subStatus : Nat)
    (subBody : SubmissionBody) (f : Nat → PollResponse)
    (hsub : submissionOk subStatus subBody = true)
    (hc : (f 0).status = some "completed") :
    (runClient req subStatus subBody f).outcome =
      .generation (.completed
        (((f 0).result.bind ResultPayload.generation).bind Generation.video)
        (((f 0).result.bind ResultPayload.generation).bind Generation.image)
        (((f 0).result.bind ResultPayload.generation).bind Generation.gif)) ∧
    (runClient req subStatus subBody f).exitCode = 0 ∧
    (runClient req subStatus subBody f).polls = 1 ∧
    ((f 0).result = none →
      ((f 0).result.bind ResultPayload.generation).bind Generation.video = none) := by
  rw [runClient_ok req subStatus subBody f hsub]
  have hterm : nonTerminal (f (0 + 0)) = false := by
    rw [Nat.zero_add, nonTerminal, hc]
    decide
  have H := pollLoop_first_terminal f (pollingPolicy req.videoModel).timeoutLabel
    0 120 0 (by omega) (fun j hj => absurd hj (Nat.not_lt_zero j)) hterm
  rw [Nat.zero_add] at H
  rw [hc] at H
  simp only [extractedOutcome] at H
  have hbeq : ((some "completed" : Option String) == some "completed") = true := by decide
  rw [hbeq, if_pos rfl] at H
  refine ⟨by rw [show (⟨RunOutcome.generation (pollLoop f
      (pollingPolicy req.videoModel).timeoutLabel 120 0).outcome, 1, _, _⟩ :
      RunResult).outcome = RunOutcome.generation (pollLoop f
      (pollingPolicy req.videoModel).timeoutLabel 120 0).outcome from rfl, H.1],
    by simp [RunResult.exitCode, H.1, PollOutcome.exitCode],
    by rw [show (⟨_, 1, (pollLoop f (pollingPolicy req.videoModel).timeoutLabel 120 0).polls,
      _⟩ : RunResult).polls = (pollLoop f
      (pollingPolicy req.videoModel).timeoutLabel 120 0).polls from rfl, H.2],
    ?_⟩
  intro hr
  rw [hr]
  rfl

/-- Poll response `{status:"completed"}` with no result payload at all. -/
def completedBareR : PollResponse := ⟨some "completed", none, none, none, none, none, none⟩

theorem completed_result_guarded_witness :
    (runClient reqSunset 202 taskBody (fun _ => completedBareR)).outcome =
      .generation (.completed none none none) ∧
    (runClient reqSunset 202 taskBody (fun _ => completedBareR)).exitCode = 0 ∧
    (runClient reqSunset 202 taskBody (fun _ => completedBareR)).polls = 1 := by
  have H := completed_result_guarded reqSunset 202 taskBody (fun _ => completedBareR)
    (by decide) (by decide)
  exact ⟨H.1, H.2.1, H.2.2.1⟩

end X402
